import Mathlib

/-!
Verification development for the upvotehub repository.

Shallow embedding of the order-commerce backend (`src/backend/app`) and the
execution ("bot") backend (`src/bot-backend`).  Documents stored in MongoDB
collections are modelled as Lean structures; a collection is a list of
documents keyed by its id field.  Timestamps (`datetime.utcnow()` and
`datetime.now().isoformat()`) are modelled as integers (epoch seconds) passed
in explicitly as `now` parameters.  Monetary amounts (Python floats) are
modelled as rationals.  Python exceptions are modelled with `Except`; a
`try/except` block that converts every exception into a return value is
modelled by a total function.
-/

namespace Upvotehub

/-! ### String primitives

Executable models of the Python string operations the code uses
(`sub in s`, `s.lower()`, `s.encode('utf-8')`), written over `List Char`
so that concrete witnesses evaluate inside the kernel. -/

/-- `needle` occurs at the start of `hay`. -/
def charListHasPre : List Char → List Char → Bool
  | [], _ => true
  | _ :: _, [] => false
  | c :: cs, d :: ds => c == d && charListHasPre cs ds

/-- `needle` occurs somewhere in `hay` (Python's `needle in hay`). -/
def charListContains : List Char → List Char → Bool
  | [], needle => needle.isEmpty
  | c :: rest, needle => charListHasPre needle (c :: rest) || charListContains rest needle

/-- Python `s.lower()` (the messages involved are ASCII). -/
def pyLower (s : String) : String := String.mk (s.data.map Char.toLower)

/-- Python `needle in hay` on strings. -/
def pyContains (hay needle : String) : Bool := charListContains hay.data needle.data

/-- UTF-8 encoding of one code point, as a list of byte values. -/
def utf8Bytes (c : Char) : List Nat :=
  let n := c.toNat
  if n < 128 then [n]
  else if n < 2048 then [192 + n / 64, 128 + n % 64]
  else if n < 65536 then [224 + n / 4096, 128 + n / 64 % 64, 128 + n % 64]
  else [240 + n / 262144, 128 + n / 4096 % 64, 128 + n / 64 % 64, 128 + n % 64]

/-- Python `s.encode('utf-8')` as a byte-value list. -/
def strUTF8 (s : String) : List Nat := s.data.foldr (fun c acc => utf8Bytes c ++ acc) []

/-- Python-level errors that the embedded code can raise. -/
inductive PyError where
  | orderProcessingError (msg : String)
  | attributeError (msg : String)
  deriving Repr, DecidableEq

/-! ## Order Ledger (backend/app, MongoDB `orders` collection)

One document of the `orders` collection, as inserted by
`OrderService.create_order` (src/backend/app/services/order_service.py).
Field `oid` stands for the Mongo `_id`. -/

structure OrderDoc where
  oid : String
  user_id : String
  reddit_url : String
  upvotes : Nat
  upvotes_per_minute : Nat
  cost : Rat
  status : String
  created_at : Int
  started_at : Option Int
  completed_at : Option Int
  cancelled_at : Option Int
  last_update : Int
  error_message : Option String
  deriving Repr, DecidableEq

/-- Lookup of a document by id (`find_one({"_id": ObjectId(order_id)})`). -/
def findOrder (db : List OrderDoc) (order_id : String) : Option OrderDoc :=
  db.find? (fun o => o.oid == order_id)

/-- The `$set` document built by `OrderService.update_order_status`
(src/backend/app/services/order_service.py lines 328-339) applied to one
order document: always sets `status` and `last_update`; sets
`error_message` only when the argument is not `None`; sets `completed_at`
for status `completed` and `cancelled_at` for status `cancelled`. -/
def applyStatusUpdate (status : String) (error_message : Option String)
    (now : Int) (o : OrderDoc) : OrderDoc :=
  let o1 := { o with status := status, last_update := now }
  let o2 := match error_message with
    | some m => { o1 with error_message := some m }
    | none => o1
  if status == "completed" then { o2 with completed_at := some now }
  else if status == "cancelled" then { o2 with cancelled_at := some now }
  else o2

/-- Embedding of `OrderService.update_order_status`
(src/backend/app/services/order_service.py lines 318-361).
`update_one` on the unique `_id` matches at most one document;
`modified_count` counts matched documents that actually changed, so the
returned boolean is true exactly when the referenced document exists and
the update changed it.  The surrounding `try/except` turns every exception
into `False`, so the embedded operation is a total function. -/
def update_order_status (db : List OrderDoc) (order_id status : String)
    (error_message : Option String) (now : Int) : List OrderDoc × Bool :=
  match findOrder db order_id with
  | none => (db, false)
  | some o =>
      let o' := applyStatusUpdate status error_message now o
      (db.map (fun x => if x.oid == order_id then applyStatusUpdate status error_message now x else x),
       o' != o)

/-! ## Periodic timeout sweep (`TaskManager._order_status_updater`) -/

/-- Filter of the Mongo query
`{"status": "in-progress", "started_at": {"$lte": now - timedelta(hours=1)}}`
(src/backend/app/utils/task_manager.py lines 225-228).  A `$lte` range
comparison against a date never matches a `null` `started_at`. -/
def orderTimedOut (now : Int) (o : OrderDoc) : Bool :=
  o.status == "in-progress" &&
    (match o.started_at with
     | some t => decide (t ≤ now - 3600)
     | none => false)

/-- One pass of the timeout branch of `TaskManager._order_status_updater`
(src/backend/app/utils/task_manager.py lines 224-253): every order matching
the timeout query is set to `failed` with the timeout error message and a
fresh `last_update`; no other document is written by this branch. -/
def sweepOrderTimeouts (db : List OrderDoc) (now : Int) : List OrderDoc :=
  db.map (fun o =>
    if orderTimedOut now o then
      { o with status := "failed",
               error_message := some "Order processing timeout (1 hour)",
               last_update := now }
    else o)

/-! ## Bot backend client (`BotBackendClient.get_bot_order_status`) -/

/-- Body of the bot backend's 200 response to `GET /orders/{id}`, as read by
the commerce side with `.get(...)` accessors (fields that the bot may omit
are options).  Timestamps are modelled as integers like everywhere else. -/
structure BotSessionData where
  status : String
  upvotes_done : Option Nat
  progress_percentage : Option Rat
  error : Option String
  last_update : Option Int
  deriving Repr, DecidableEq

/-- Outcome of the HTTP `GET {bot_backend_url}/orders/{id}` as seen by the
client: a 200 with a session body, a 404, some other status code, or a
raised exception (network error, timeout, ...) carrying its message. -/
inductive BotHttp where
  | ok (data : BotSessionData)
  | notFound
  | otherStatus (code : Nat)
  | exn (msg : String)
  deriving Repr, DecidableEq

/-- Result dictionary of `BotBackendClient.get_bot_order_status`
(src/backend/app/services/bot_client.py lines 77-112).  On failure the
`error` field carries the message tested by the routes; on success it is
unused. -/
structure BotResult where
  success : Bool
  error : String
  data : Option BotSessionData
  deriving Repr, DecidableEq

/-- Embedding of `BotBackendClient.get_bot_order_status`
(src/backend/app/services/bot_client.py lines 77-112): 200 yields success
with the body; 404 yields the fixed not-found message; another status code
yields `"Bot backend error: <code>"`; any exception is caught and yields
`"Communication error: <message>"`. -/
def get_bot_order_status (reply : BotHttp) : BotResult :=
  match reply with
  | .ok data => { success := true, error := "", data := some data }
  | .notFound =>
      { success := false,
        error := "Order not found in bot backend - may have been interrupted by restart",
        data := none }
  | .otherStatus code =>
      { success := false, error := "Bot backend error: " ++ toString code, data := none }
  | .exn msg =>
      { success := false, error := "Communication error: " ++ msg, data := none }

/-! ## Commerce-side status check (`GET /api/orders/{order_id}/status`) -/

/-- JSON body returned by the status route on success
(src/backend/app/routes/order.py). -/
structure StatusRouteBody where
  success : Bool
  status : String
  order_id : String
  total_upvotes : Nat
  upvotes_done : Nat
  progress_percentage : Rat
  error_message : Option String
  last_update : Option Int
  deriving Repr, DecidableEq

/-- Outcome of the status route: an `HTTPException` with its status code, or
a 200 with a body. -/
inductive RouteOutcome where
  | httpError (code : Nat)
  | ok (body : StatusRouteBody)
  deriving Repr, DecidableEq

/-- Response of lines 112-121 of src/backend/app/routes/order.py: the
database status is returned for terminal orders and whenever the bot
backend check did not produce a response of its own. -/
def dbStatusBody (o : OrderDoc) : StatusRouteBody :=
  { success := true
    status := o.status
    order_id := o.oid
    total_upvotes := o.upvotes
    upvotes_done := 0
    progress_percentage := if o.status == "completed" then 100 else 0
    error_message := o.error_message
    last_update := some o.last_update }

/-- The list of ledger statuses the route treats as active
(src/backend/app/routes/order.py line 64). -/
def activeStatuses : List String := ["pending", "processing", "in-progress"]

/-- Embedding of the route handler `get_order_status`
(src/backend/app/routes/order.py lines 31-130).  `requester` is
`current_user.id`; `reply` is the outcome of the single HTTP call the
handler makes to the bot backend (reached only when the ledger status is
active).  Returns the possibly updated ledger together with the HTTP
outcome.  The service helpers `get_order_by_id` / `get_order_status` both
read the same document, modelled by one `findOrder`. -/
def orderStatusRoute (db : List OrderDoc) (order_id requester : String)
    (reply : BotHttp) (now : Int) : List OrderDoc × RouteOutcome :=
  match findOrder db order_id with
  | none => (db, .httpError 404)
  | some o =>
    if o.user_id != requester then (db, .httpError 403)
    else if activeStatuses.contains o.status then
      let bot_result := get_bot_order_status reply
      match bot_result.data, bot_result.success with
      | some data, true =>
          (db, .ok { success := true
                     status := data.status
                     order_id := order_id
                     total_upvotes := o.upvotes
                     upvotes_done := data.upvotes_done.getD 0
                     progress_percentage := data.progress_percentage.getD 0
                     error_message := data.error
                     last_update :=
                       match data.last_update with
                       | some t => some t
                       | none => some o.last_update })
      | _, _ =>
          if pyContains (pyLower bot_result.error) "not found" then
            let (db', _) := update_order_status db order_id "failed"
                (some "Order was interrupted by bot backend restart") now
            (db', .ok { success := true
                        status := "failed"
                        order_id := order_id
                        total_upvotes := o.upvotes
                        upvotes_done := 0
                        progress_percentage := 0
                        error_message := some "Order was interrupted by bot backend restart"
                        last_update := some o.last_update })
          else
            (db, .ok (dbStatusBody o))
    else
      (db, .ok (dbStatusBody o))

/-- Repeated reconciliation attempts: the ledger after `n` runs of the
status route against the same bot reply (each run discards the response
body and keeps the ledger it produced). -/
def iterateStatusRoute (db : List OrderDoc) (order_id requester : String)
    (reply : BotHttp) (now : Int) : Nat → List OrderDoc
  | 0 => db
  | n + 1 =>
      iterateStatusRoute (orderStatusRoute db order_id requester reply now).1
        order_id requester reply now n

/-! ## Task manager and order creation (C1) -/

/-- The methods defined by `class TaskManager`
(src/backend/app/utils/task_manager.py lines 9-286), i.e. the attribute
names a `TaskManager` instance resolves.  Note that
`schedule_bot_order_processing` is not among them; the only scheduling
method is `schedule_order_processing` (lines 63-75). -/
def taskManagerMethods : List String :=
  ["start", "stop", "schedule_order_processing", "_recover_pending_orders",
   "_order_processor", "_process_single_order", "_queue_monitor",
   "_payment_status_checker", "_order_status_updater"]

/-- Python's `x or 1` applied to the optional `upvotes_per_minute` of a
creation request (src/backend/app/services/order_service.py line 38):
`None` and `0` both fall back to `1`. -/
def pyOrOne : Option Nat → Nat
  | none => 1
  | some 0 => 1
  | some n => n

/-- A validated order-creation request (`OrderCreate`); the pydantic model
has already checked the Reddit URL and positive quantities. -/
structure OrderCreateReq where
  reddit_url : String
  upvotes : Nat
  upvotes_per_minute : Option Nat
  deriving Repr, DecidableEq

/-- Commerce-side state touched by `OrderService.create_order`: the
requesting user's credit balance, the `orders` collection, and the task
manager's in-process dispatch queue (ids put on `order_queue`). -/
structure BackendState where
  credits : Rat
  orders : List OrderDoc
  queue : List String
  deriving Repr, DecidableEq

/-- Embedding of `OrderService.create_order`
(src/backend/app/services/order_service.py lines 18-71): deduct
`upvotes * 0.008` credits guarded by `credits >= cost`; insert the order
document with status `pending`; then call
`task_manager.schedule_bot_order_processing(order_dict)`.  The attribute
lookup is modelled against `taskManagerMethods`: if the name resolved, the
order id would be put on the queue; otherwise Python raises
`AttributeError`, which propagates to the caller with the state mutations
already applied. -/
def create_order (st : BackendState) (user_id : String) (req : OrderCreateReq)
    (newId : String) (now : Int) : BackendState × Except PyError OrderDoc :=
  let cost : Rat := req.upvotes * (8 / 1000)
  if st.credits < cost then
    (st, .error (.orderProcessingError "Insufficient credits or user not found"))
  else
    let doc : OrderDoc :=
      { oid := newId
        user_id := user_id
        reddit_url := req.reddit_url
        upvotes := req.upvotes
        upvotes_per_minute := pyOrOne req.upvotes_per_minute
        cost := cost
        status := "pending"
        created_at := now
        started_at := none
        completed_at := none
        cancelled_at := none
        last_update := now
        error_message := none }
    let st1 : BackendState :=
      { credits := st.credits - cost, orders := st.orders ++ [doc], queue := st.queue }
    if taskManagerMethods.contains "schedule_bot_order_processing" then
      ({ st1 with queue := st1.queue ++ [newId] }, .ok doc)
    else
      (st1, .error (.attributeError
        "TaskManager object has no attribute schedule_bot_order_processing"))

/-! ## Cryptomus webhook signature (C6) -/

/-- The standard base64 alphabet used by `base64.b64encode`. -/
def base64Alphabet : List Char :=
  "ABCDEFGHIJKLMNOPQRSTUVWXYZabcdefghijklmnopqrstuvwxyz0123456789+/".toList

/-- Character of the base64 alphabet at a 6-bit index. -/
def b64Char (i : Nat) : Char := base64Alphabet.getD i '?'

/-- RFC 4648 base64 encoding of a byte list, with `=` padding, exactly as
`base64.b64encode` produces it. -/
def base64EncodeBytes : List Nat → String
  | [] => ""
  | [b1] =>
      String.mk [b64Char (b1 / 4), b64Char (b1 % 4 * 16), '=', '=']
  | [b1, b2] =>
      String.mk [b64Char (b1 / 4), b64Char (b1 % 4 * 16 + b2 / 16),
                 b64Char (b2 % 16 * 4), '=']
  | b1 :: b2 :: b3 :: rest =>
      String.mk [b64Char (b1 / 4), b64Char (b1 % 4 * 16 + b2 / 16),
                 b64Char (b2 % 16 * 4 + b3 / 64), b64Char (b3 % 64)]
        ++ base64EncodeBytes rest

/-- `base64.b64encode(payload.encode('utf-8')).decode('utf-8')`. -/
def base64Encode (s : String) : String :=
  base64EncodeBytes (strUTF8 s)

/-- Embedding of `CryptomusService._generate_signature`
(src/backend/app/services/cryptomus_service.py lines 29-47): the hex MD5
digest of the base64-encoded payload concatenated with the API key.  The
external library call `hashlib.md5(...).hexdigest()` is the parameter
`md5hex`; everything the repository computes around it is explicit. -/
def generate_signature (md5hex : String → String) (api_key payload : String) : String :=
  md5hex (base64Encode payload ++ api_key)

/-- Embedding of `CryptomusService.verify_webhook_signature`
(src/backend/app/services/cryptomus_service.py lines 290-307): recompute
the signature over the raw payload and compare for equality. -/
def verify_webhook_signature (md5hex : String → String) (api_key : String)
    (payload signature : String) : Bool :=
  generate_signature md5hex api_key payload == signature

/-- Outcome of the webhook route: rejected with an HTTP status code and
detail, or verified with the raw body handed on to JSON parsing and
`PaymentService.handle_cryptomus_webhook`.  Parsing and every payment side
effect happen only in the `verified` case. -/
inductive WebhookOutcome where
  | rejected (code : Nat) (detail : String)
  | verified (body : String)
  deriving Repr, DecidableEq

/-- Embedding of the route handler `cryptomus_webhook`
(src/backend/app/routes/payment_routes.py lines 73-110) up to the point
where the verified raw body reaches `json.loads` and the payment service:
a missing `sign` header or a failed verification rejects with 400 before
any parsing. -/
def cryptomus_webhook (md5hex : String → String) (api_key : String)
    (body : String) (signHeader : Option String) : WebhookOutcome :=
  match signHeader with
  | none => .rejected 400 "Missing signature"
  | some signature =>
      if verify_webhook_signature md5hex api_key body signature then
        .verified body
      else
        .rejected 400 "Invalid signature"

/-! ## Payment webhook crediting (C2) -/

/-- A document of the `payments` collection, restricted to the fields the
webhook handler reads and writes.  `cryptomus_uuid` models
`payment_details.cryptomus_payment_uuid`. -/
structure PaymentDoc where
  pid : String
  user_id : String
  amount : Rat
  status : String
  cryptomus_uuid : Option String
  completed_at : Option Int
  cancelled_at : Option Int
  deriving Repr, DecidableEq

/-- Embedding of `CryptomusService.parse_payment_status`
(src/backend/app/services/cryptomus_service.py lines 258-288): the fixed
provider-status table, defaulting to `pending`. -/
def parse_payment_status (s : String) : String :=
  if s == "paid" then "completed"
  else if s == "paid_over" then "completed"
  else if s == "process" then "pending"
  else if s == "confirm_check" then "pending"
  else if s == "check" then "pending"
  else if s == "wrong_amount_waiting" then "pending"
  else if s == "wrong_amount" then "failed"
  else if s == "fail" then "failed"
  else if s == "cancel" then "cancelled"
  else if s == "system_fail" then "failed"
  else if s == "refund_process" then "refunded"
  else if s == "refund_fail" then "failed"
  else if s == "refund_paid" then "refunded"
  else "pending"

/-- The fields of a Cryptomus webhook body the handler reads
(`webhook_data.get("uuid")`, `webhook_data.get("status")`). -/
structure WebhookData where
  uuid : Option String
  status : Option String
  deriving Repr, DecidableEq

/-- State touched by the webhook handler: the `payments` collection and the
owner's credit balance (`UserService.update_credits` performs
`$inc: {credits: amount}`). -/
structure PayState where
  payments : List PaymentDoc
  credits : Rat
  deriving Repr, DecidableEq

/-- The `$set` update the handler builds for the found payment: the new
status, plus `completed_at` on `completed` and `cancelled_at` on
`cancelled`/`failed`. -/
def applyPaymentUpdate (new_status : String) (now : Int) (p : PaymentDoc) : PaymentDoc :=
  let p1 := { p with status := new_status }
  if new_status == "completed" then { p1 with completed_at := some now }
  else if new_status == "cancelled" || new_status == "failed" then
    { p1 with cancelled_at := some now }
  else p1

/-- Embedding of `PaymentService.handle_cryptomus_webhook`
(src/backend/app/services/payment_service.py lines 239-294): find the
payment by provider uuid; map the provider status; if the mapped status
differs from the stored one, write the update and, exactly on the branch
`new_status == "completed"`, add the payment amount to the owner's
credits; if the statuses are equal, skip every side effect.  Returns the
new state and the handler's boolean result. -/
def handle_cryptomus_webhook (st : PayState) (w : WebhookData) (now : Int) :
    PayState × Bool :=
  match w.uuid with
  | none => (st, false)
  | some u =>
    match st.payments.find? (fun p => p.cryptomus_uuid == some u) with
    | none => (st, false)
    | some payment =>
      let new_status := match w.status with
        | some s => parse_payment_status s
        | none => "pending"
      if new_status != payment.status then
        let credits' :=
          if new_status == "completed" then st.credits + payment.amount
          else st.credits
        let payments' := st.payments.map (fun q =>
          if q.pid == payment.pid then applyPaymentUpdate new_status now q else q)
        ({ payments := payments', credits := credits' }, true)
      else
        (st, true)

/-- Deliver a list of webhooks in order (each with its own timestamp taken
from the head of the clock offset, modelled by successive integers). -/
def runWebhooks (st : PayState) : List (WebhookData × Int) → PayState
  | [] => st
  | (w, now) :: rest => runWebhooks (handle_cryptomus_webhook st w now).1 rest

/-! ## Execution History Store (src/bot-backend/order_history.py) -/

/-- One entry of `order_history.json`, as written by
`OrderHistoryManager.add_order`.  The backing file is a JSON object keyed
by order id; it is modelled as a list of entries looked up by first match
(the dict guarantees at most one entry per id). -/
structure HistEntry where
  order_id : String
  reddit_url : Option String
  total_upvotes : Option Int
  upvotes_per_minute : Option Int
  status : String
  upvotes_done : Nat
  progress_percentage : Rat
  created_at : Int
  started_at : Option Int
  completed_at : Option Int
  last_update : Int
  error_message : Option String
  deriving Repr, DecidableEq

/-- `history.get(order_id)` on the entry list. -/
def findHist (h : List HistEntry) (order_id : String) : Option HistEntry :=
  h.find? (fun e => e.order_id == order_id)

/-- The entry `OrderHistoryManager.add_order` writes for a fresh order
(src/bot-backend/order_history.py lines 65-97). -/
def newHistEntry (order_id : String) (reddit_url : Option String)
    (upvotes upvotes_per_minute : Option Int) (now : Int) : HistEntry :=
  { order_id := order_id
    reddit_url := reddit_url
    total_upvotes := upvotes
    upvotes_per_minute := upvotes_per_minute
    status := "pending"
    upvotes_done := 0
    progress_percentage := 0
    created_at := now
    started_at := none
    completed_at := none
    last_update := now
    error_message := none }

/-- Dict assignment `history[order_id] = entry`: replace an existing entry
for the id, otherwise append. -/
def histUpsert (h : List HistEntry) (e : HistEntry) : List HistEntry :=
  if h.any (fun x => x.order_id == e.order_id) then
    h.map (fun x => if x.order_id == e.order_id then e else x)
  else h ++ [e]

/-- The in-place mutation `OrderHistoryManager.update_order_status` performs
on the found entry (src/bot-backend/order_history.py lines 99-135): set
`status` and `last_update`; apply the non-`None` keyword fields
(`error_message`, `completed_at`, `started_at` are the ones the modelled
call sites pass); then set `started_at` when status is `running` and it is
still unset, or `completed_at` when the status is terminal and it is still
unset. -/
def applyHistUpdate (status : String) (kw_error : Option String)
    (kw_completed kw_started : Option Int) (now : Int) (e : HistEntry) : HistEntry :=
  let e1 := { e with status := status, last_update := now }
  let e2 := match kw_error with
    | some m => { e1 with error_message := some m }
    | none => e1
  let e3 := match kw_completed with
    | some t => { e2 with completed_at := some t }
    | none => e2
  let e4 := match kw_started with
    | some t => { e3 with started_at := some t }
    | none => e3
  if status == "running" && e4.started_at == none then
    { e4 with started_at := some now }
  else if (status == "completed" || status == "failed") && e4.completed_at == none then
    { e4 with completed_at := some now }
  else e4

/-- Embedding of `OrderHistoryManager.update_order_status`
(src/bot-backend/order_history.py lines 99-135): a missing id leaves the
store unchanged (warning only). -/
def history_update_order_status (h : List HistEntry) (order_id status : String)
    (kw_error : Option String) (kw_completed kw_started : Option Int)
    (now : Int) : List HistEntry :=
  if h.any (fun e => e.order_id == order_id) then
    h.map (fun e =>
      if e.order_id == order_id then
        applyHistUpdate status kw_error kw_completed kw_started now e
      else e)
  else h

/-- Embedding of `OrderHistoryManager.mark_as_failed_after_restart`
(src/bot-backend/order_history.py lines 167-180). -/
def mark_as_failed_after_restart (h : List HistEntry) (order_id : String)
    (now : Int) : List HistEntry :=
  history_update_order_status h order_id "failed"
    (some "Order failed due to bot backend restart") (some now) none now

/-- Embedding of `UpvoteProcessor._handle_restart_recovery`
(src/bot-backend/script.py lines 368-387): iterate over a snapshot of all
history entries and mark every one whose status is `pending` or `running`
as failed. -/
def handle_restart_recovery (h : List HistEntry) (now : Int) : List HistEntry :=
  (h.filter (fun e => e.status == "pending" || e.status == "running")).foldl
    (fun acc e => mark_as_failed_after_restart acc e.order_id now) h

/-! ## Upvote sessions (src/bot-backend/script.py) -/

/-- The `UpvoteSession` dataclass (src/bot-backend/script.py lines 38-48)
plus its two dynamically created attributes: the dataclass declares only
`order_id, url, total_upvotes, upvotes_per_minute, status, start_time,
last_update, error_message`; `upvotes_done` and `progress_percentage` are
assigned for the first time inside `_upvote_worker` or the retry endpoint,
so on a fresh session they are absent — modelled as `none`, and reading
them through `sessionUpvotesDone` / `sessionProgress` while absent raises
`AttributeError` exactly as Python does. -/
structure UpvoteSession where
  order_id : String
  url : String
  total_upvotes : Int
  upvotes_per_minute : Int
  status : String
  start_time : Int
  last_update : Int
  error_message : Option String
  upvotes_done : Option Int
  progress_percentage : Option Rat
  deriving Repr, DecidableEq

/-- Attribute read `session.upvotes_done`. -/
def sessionUpvotesDone (s : UpvoteSession) : Except PyError Int :=
  match s.upvotes_done with
  | some v => .ok v
  | none => .error (.attributeError "UpvoteSession object has no attribute upvotes_done")

/-- Attribute read `session.progress_percentage`. -/
def sessionProgress (s : UpvoteSession) : Except PyError Rat :=
  match s.progress_percentage with
  | some v => .ok v
  | none => .error (.attributeError "UpvoteSession object has no attribute progress_percentage")

/-- State of an `UpvoteProcessor`: the in-memory session dict, the
persistent history, and the order ids whose worker thread has been
started (the observable side effect of `thread.start()`). -/
structure ProcState where
  sessions : List UpvoteSession
  history : List HistEntry
  threadsStarted : List String
  deriving Repr, DecidableEq

/-- `self.sessions.get(order_id)` / `order_id in self.sessions`. -/
def findSession (sessions : List UpvoteSession) (order_id : String) :
    Option UpvoteSession :=
  sessions.find? (fun s => s.order_id == order_id)

/-- Dict assignment `self.sessions[order_id] = session`. -/
def sessionUpsert (sessions : List UpvoteSession) (s : UpvoteSession) :
    List UpvoteSession :=
  if sessions.any (fun x => x.order_id == s.order_id) then
    sessions.map (fun x => if x.order_id == s.order_id then s else x)
  else sessions ++ [s]

/-- The JSON result dictionaries produced by `process_order`,
`_start_upvote_processing` and `get_session_status`
(src/bot-backend/script.py): the common fields, with the ones only some
branches emit as options. -/
structure BotProcResult where
  success : Bool
  status : String
  error : Option String
  upvotes_done : Int
  progress_percentage : Rat
  order_id : Option String
  total_upvotes : Option Int
  deriving Repr, DecidableEq

/-- The raw order dictionary received from the backend, with each of the
four required keys possibly missing. -/
structure BotOrderData where
  order_id : Option String
  reddit_url : Option String
  upvotes : Option Int
  upvotes_per_minute : Option Int
  deriving Repr, DecidableEq

/-- Embedding of `UpvoteProcessor._start_upvote_processing`
(src/bot-backend/script.py lines 131-170): mark the session running,
update the history, start the worker thread, then build the success
response — which reads `session.upvotes_done` and
`session.progress_percentage` and therefore raises `AttributeError` on a
session that never had them assigned.  The state returned with an error
keeps every mutation made before the raise. -/
def start_upvote_processing (st : ProcState) (order_id : String) (now : Int) :
    ProcState × Except PyError BotProcResult :=
  match findSession st.sessions order_id with
  | none =>
      (st, .ok { success := false, status := "failed",
                 error := some "Session not found", upvotes_done := 0,
                 progress_percentage := 0, order_id := none, total_upvotes := none })
  | some session =>
      let session' := { session with status := "running", last_update := now }
      let st1 : ProcState :=
        { sessions := sessionUpsert st.sessions session'
          history := history_update_order_status st.history order_id "running"
            none none (some now) now
          threadsStarted := st.threadsStarted ++ [order_id] }
      match sessionUpvotesDone session' with
      | .error e => (st1, .error e)
      | .ok ud =>
        match sessionProgress session' with
        | .error e => (st1, .error e)
        | .ok pp =>
            (st1, .ok { success := true, status := session'.status,
                        error := none, upvotes_done := ud,
                        progress_percentage := pp, order_id := some order_id,
                        total_upvotes := some session'.total_upvotes })

/-- Message of a `PyError` as `str(e)` renders it. -/
def pyErrorMsg : PyError → String
  | .orderProcessingError m => m
  | .attributeError m => m

/-- Embedding of `UpvoteProcessor.process_order`
(src/bot-backend/script.py lines 65-129): validate the four required
fields in order, validate positivity, create the session (fresh, with the
dynamic attributes absent), add the history entry, and call
`_start_upvote_processing`; the outer `except` converts any raised
exception into the `"Processing error: ..."` failure result, keeping the
state mutations already performed. -/
def process_order (st : ProcState) (od : BotOrderData) (now : Int) :
    ProcState × BotProcResult :=
  let missing (field : String) : ProcState × BotProcResult :=
    (st, { success := false, status := "failed",
           error := some ("Missing required field: " ++ field),
           upvotes_done := 0, progress_percentage := 0,
           order_id := none, total_upvotes := none })
  match od.order_id with
  | none => missing "order_id"
  | some order_id =>
  match od.reddit_url with
  | none => missing "reddit_url"
  | some url =>
  match od.upvotes with
  | none => missing "upvotes"
  | some total_upvotes =>
  match od.upvotes_per_minute with
  | none => missing "upvotes_per_minute"
  | some upvotes_per_minute =>
  if total_upvotes ≤ 0 || upvotes_per_minute ≤ 0 then
    (st, { success := false, status := "failed",
           error := some "Invalid upvote parameters",
           upvotes_done := 0, progress_percentage := 0,
           order_id := none, total_upvotes := none })
  else
    let session : UpvoteSession :=
      { order_id := order_id, url := url, total_upvotes := total_upvotes
        upvotes_per_minute := upvotes_per_minute, status := "pending"
        start_time := now, last_update := now, error_message := none
        upvotes_done := none, progress_percentage := none }
    let st1 : ProcState :=
      { st with sessions := sessionUpsert st.sessions session
                history := histUpsert st.history
                  (newHistEntry order_id (some url) (some total_upvotes)
                    (some upvotes_per_minute) now) }
    match start_upvote_processing st1 order_id now with
    | (st2, .ok r) => (st2, r)
    | (st2, .error e) =>
        (st2, { success := false, status := "failed",
                error := some ("Processing error: " ++ pyErrorMsg e),
                upvotes_done := 0, progress_percentage := 0,
                order_id := none, total_upvotes := none })

/-- Embedding of `UpvoteProcessor.get_session_status`
(src/bot-backend/script.py lines 305-361): the in-memory session, if any,
is rendered first (reading the dynamic attributes, which can raise);
otherwise the persistent history entry is rendered; otherwise the
`not_found` failure result. -/
def get_session_status (sessions : List UpvoteSession) (history : List HistEntry)
    (order_id : String) : Except PyError BotProcResult :=
  match findSession sessions order_id with
  | some session =>
      match sessionUpvotesDone session with
      | .error e => .error e
      | .ok ud =>
        match sessionProgress session with
        | .error e => .error e
        | .ok pp =>
            .ok { success := true, status := session.status,
                  error := session.error_message, upvotes_done := ud,
                  progress_percentage := pp, order_id := some order_id,
                  total_upvotes := some session.total_upvotes }
  | none =>
    match findHist history order_id with
    | some entry =>
        .ok { success := true, status := entry.status,
              error := entry.error_message,
              upvotes_done := entry.upvotes_done,
              progress_percentage := entry.progress_percentage,
              order_id := some order_id,
              total_upvotes := entry.total_upvotes }
    | none =>
        .ok { success := false, status := "not_found",
              error := some "Session not found", upvotes_done := 0,
              progress_percentage := 0, order_id := none, total_upvotes := none }

/-! ## Helper lemmas -/

lemma applyStatusUpdate_oid (s : String) (m : Option String) (now : Int) (o : OrderDoc) :
    (applyStatusUpdate s m now o).oid = o.oid := by
  unfold applyStatusUpdate
  cases m <;> dsimp only <;> split <;> try split
  all_goals rfl

lemma applyStatusUpdate_user_id (s : String) (m : Option String) (now : Int) (o : OrderDoc) :
    (applyStatusUpdate s m now o).user_id = o.user_id := by
  unfold applyStatusUpdate
  cases m <;> dsimp only <;> split <;> try split
  all_goals rfl

lemma applyStatusUpdate_status (s : String) (m : Option String) (now : Int) (o : OrderDoc) :
    (applyStatusUpdate s m now o).status = s := by
  unfold applyStatusUpdate
  cases m <;> dsimp only <;> split <;> try split
  all_goals rfl

lemma applyStatusUpdate_last_update (s : String) (m : Option String) (now : Int) (o : OrderDoc) :
    (applyStatusUpdate s m now o).last_update = now := by
  unfold applyStatusUpdate
  cases m <;> dsimp only <;> split <;> try split
  all_goals rfl

lemma applyStatusUpdate_completed (m : Option String) (now : Int) (o : OrderDoc) :
    (applyStatusUpdate "completed" m now o).completed_at = some now := by
  unfold applyStatusUpdate
  cases m <;> rfl

lemma applyStatusUpdate_cancelled (m : Option String) (now : Int) (o : OrderDoc) :
    (applyStatusUpdate "cancelled" m now o).cancelled_at = some now := by
  unfold applyStatusUpdate
  cases m <;> rfl

lemma applyStatusUpdate_error_some (s : String) (msg : String) (now : Int) (o : OrderDoc) :
    (applyStatusUpdate s (some msg) now o).error_message = some msg := by
  unfold applyStatusUpdate
  dsimp only
  split <;> try split
  all_goals rfl

/-- Lookup after the keyed write of `update_one`: mapping a function that
rewrites exactly the documents matching the id (and preserves ids) maps the
looked-up document. -/
lemma findOrder_map_keyed (db : List OrderDoc) (id : String) (g : OrderDoc → OrderDoc)
    (hg : ∀ x, (g x).oid = x.oid) :
    findOrder (db.map (fun x => if x.oid == id then g x else x)) id =
      (findOrder db id).map g := by
  induction db with
  | nil => rfl
  | cons x xs ih =>
      by_cases hx : x.oid == id
      · simp only [findOrder, List.map_cons, hx, if_pos]
        rw [List.find?_cons_of_pos, List.find?_cons_of_pos]
        · rfl
        · exact hx
        · simpa [hg] using hx
      · simp only [findOrder, List.map_cons, hx, if_neg, Bool.not_eq_true]
        rw [List.find?_cons_of_neg, List.find?_cons_of_neg]
        · exact ih
        · simpa using hx
        · simpa using hx

/-- C10 auxiliary: the looked-up document after `update_order_status` found
one. -/
lemma findOrder_update_order_status (db : List OrderDoc) (id s : String)
    (m : Option String) (now : Int) (o : OrderDoc) (hf : findOrder db id = some o) :
    findOrder (update_order_status db id s m now).1 id =
      some (applyStatusUpdate s m now o) := by
  unfold update_order_status
  rw [hf]
  dsimp only
  rw [findOrder_map_keyed db id _ (fun x => applyStatusUpdate_oid s m now x), hf]
  rfl

/-- A sample pending ledger document used by concrete witnesses. -/
def samplePendingOrder : OrderDoc :=
  { oid := "o1", user_id := "u1", reddit_url := "https://www.reddit.com/r/a/",
    upvotes := 10, upvotes_per_minute := 1, cost := 0, status := "pending",
    created_at := 0, started_at := none, completed_at := none,
    cancelled_at := none, last_update := 0, error_message := none }

/-- C10: `update_order_status` returns false and writes nothing when the
order id is not in the ledger; when the order exists (and the write is not
the degenerate byte-identical rewrite, guaranteed here by a fresh
`last_update`), it sets status, `last_update`, the terminal timestamp for
`completed`/`cancelled`, and returns true.  The operation is a total
function: every exception in the source is caught and turned into
`false`. -/
theorem update_order_status_contract (db : List OrderDoc) (id s : String)
    (m : Option String) (now : Int) :
    (findOrder db id = none → update_order_status db id s m now = (db, false)) ∧
    (∀ o, findOrder db id = some o → o.last_update ≠ now →
      (update_order_status db id s m now).2 = true ∧
      ∃ o', findOrder (update_order_status db id s m now).1 id = some o' ∧
        o'.status = s ∧ o'.last_update = now ∧
        (s = "completed" → o'.completed_at = some now) ∧
        (s = "cancelled" → o'.cancelled_at = some now)) := by
  constructor
  · intro hnone
    unfold update_order_status
    rw [hnone]
  · intro o hf hlu
    constructor
    · unfold update_order_status
      rw [hf]
      dsimp only
      rw [bne_iff_ne]
      intro hcontra
      apply hlu
      rw [← applyStatusUpdate_last_update s m now o, hcontra]
    · refine ⟨applyStatusUpdate s m now o, findOrder_update_order_status db id s m now o hf,
        applyStatusUpdate_status s m now o, applyStatusUpdate_last_update s m now o,
        ?_, ?_⟩
      · intro hs; subst hs; exact applyStatusUpdate_completed m now o
      · intro hs; subst hs; exact applyStatusUpdate_cancelled m now o

/-- C10 witness: a ledger with one pending order; updating it to
`completed` returns true and stamps the terminal timestamp; updating a
missing id returns false. -/
theorem update_order_status_contract_witness :
    (update_order_status [] "missing" "failed" none 5 = ([], false)) ∧
    ((update_order_status [samplePendingOrder] "o1" "completed" none 5).2 = true) := by
  constructor
  · exact (update_order_status_contract [] "missing" "failed" none 5).1 (by rfl)
  · exact ((update_order_status_contract [samplePendingOrder] "o1" "completed" none 5).2
      samplePendingOrder (by rfl) (by decide)).1

/-- C8 auxiliary: the Mongo timeout filter matched exactly when the order
is `in-progress` with a `started_at` at least one hour before `now`. -/
lemma orderTimedOut_iff (now : Int) (o : OrderDoc) :
    orderTimedOut now o = true ↔
      o.status = "in-progress" ∧ ∃ t, o.started_at = some t ∧ t ≤ now - 3600 := by
  unfold orderTimedOut
  cases h : o.started_at with
  | none => simp [h]
  | some t => simp [h]

/-- C8: one pass of the timeout sweep turns every order that is
`in-progress` with `started_at` at least one hour in the past into
`failed` with the processing-timeout message (no adapter response is
involved), and leaves every other order untouched. -/
theorem order_timeout_sweep (db : List OrderDoc) (now : Int) (i : Nat)
    (hi : i < db.length) :
    (((db.get ⟨i, hi⟩).status = "in-progress" ∧
      ∃ t, (db.get ⟨i, hi⟩).started_at = some t ∧ t ≤ now - 3600) →
        (sweepOrderTimeouts db now).get ⟨i, by simpa [sweepOrderTimeouts] using hi⟩ =
          { db.get ⟨i, hi⟩ with
              status := "failed",
              error_message := some "Order processing timeout (1 hour)",
              last_update := now }) ∧
    ((¬ ((db.get ⟨i, hi⟩).status = "in-progress" ∧
      ∃ t, (db.get ⟨i, hi⟩).started_at = some t ∧ t ≤ now - 3600)) →
        (sweepOrderTimeouts db now).get ⟨i, by simpa [sweepOrderTimeouts] using hi⟩ =
          db.get ⟨i, hi⟩) := by
  constructor
  · intro hmatch
    have hb : orderTimedOut now (db.get ⟨i, hi⟩) = true :=
      (orderTimedOut_iff now _).mpr hmatch
    simp only [List.get_eq_getElem] at hb ⊢
    simp [sweepOrderTimeouts, hb]
  · intro hmatch
    have hb : orderTimedOut now (db.get ⟨i, hi⟩) = false := by
      rcases hb' : orderTimedOut now (db.get ⟨i, hi⟩) with _ | _
      · rfl
      · exact absurd ((orderTimedOut_iff now _).mp hb') hmatch
    simp only [List.get_eq_getElem] at hb ⊢
    simp [sweepOrderTimeouts, hb]

/-- A sample in-progress ledger document that has exceeded the one-hour
processing ceiling at time 4000. -/
def sampleStaleOrder : OrderDoc :=
  { oid := "o2", user_id := "u1", reddit_url := "https://www.reddit.com/r/a/",
    upvotes := 10, upvotes_per_minute := 1, cost := 0, status := "in-progress",
    created_at := 0, started_at := some 100, completed_at := none,
    cancelled_at := none, last_update := 100, error_message := none }

/-- C8 witness: at `now = 4000`, the sweep fails the stale in-progress
order (started at 100) and leaves the fresh pending order alone. -/
theorem order_timeout_sweep_witness :
    ((sweepOrderTimeouts [sampleStaleOrder, samplePendingOrder] 4000).get
        ⟨0, by simp [sweepOrderTimeouts]⟩ =
      { sampleStaleOrder with
          status := "failed",
          error_message := some "Order processing timeout (1 hour)",
          last_update := 4000 }) ∧
    ((sweepOrderTimeouts [sampleStaleOrder, samplePendingOrder] 4000).get
        ⟨1, by simp [sweepOrderTimeouts]⟩ = samplePendingOrder) := by
  constructor
  · exact (order_timeout_sweep [sampleStaleOrder, samplePendingOrder] 4000 0
      (by simp)).1 ⟨by rfl, 100, by rfl, by decide⟩
  · exact (order_timeout_sweep [sampleStaleOrder, samplePendingOrder] 4000 1
      (by simp)).2 (by rintro ⟨h, -⟩; exact absurd h (by decide))

/-- C6: the webhook verifier returns true exactly when the supplied
signature equals the keyed digest recomputed over the raw body (MD5 of the
base64-encoded body concatenated with the secret key); a request without a
`sign` header, and a tampered body presented with the original body's
signature (their digests differing), are both rejected with 400 before the
body is parsed or any payment side effect runs. -/
theorem webhook_signature_verification (md5hex : String → String)
    (api_key body sig : String) :
    (verify_webhook_signature md5hex api_key body sig = true ↔
      sig = md5hex (base64Encode body ++ api_key)) ∧
    (cryptomus_webhook md5hex api_key body none = .rejected 400 "Missing signature") ∧
    (∀ tampered,
      md5hex (base64Encode tampered ++ api_key) ≠ md5hex (base64Encode body ++ api_key) →
      verify_webhook_signature md5hex api_key body sig = true →
      cryptomus_webhook md5hex api_key tampered (some sig) =
        .rejected 400 "Invalid signature") := by
  refine ⟨?_, rfl, ?_⟩
  · unfold verify_webhook_signature generate_signature
    rw [beq_iff_eq, eq_comm]
  · intro tampered hdiff hverify
    have hsig : sig = md5hex (base64Encode body ++ api_key) := by
      unfold verify_webhook_signature generate_signature at hverify
      rw [beq_iff_eq] at hverify
      exact hverify.symm
    have hfalse : verify_webhook_signature md5hex api_key tampered sig = false := by
      unfold verify_webhook_signature generate_signature
      rw [beq_eq_false_iff_ne]
      rw [hsig]
      exact hdiff
    simp [cryptomus_webhook, hfalse]

/-- C6 witness: with the digest function instantiated to a concrete
injective-on-these-inputs function, body `"a"` signed as its own digest
verifies, the tampered body `"b"` with that signature is rejected, and a
missing header is rejected. -/
theorem webhook_signature_verification_witness :
    (verify_webhook_signature (fun s => s) "k" "a" "YQ==k" = true) ∧
    (cryptomus_webhook (fun s => s) "k" "a" none = .rejected 400 "Missing signature") ∧
    (cryptomus_webhook (fun s => s) "k" "b" (some "YQ==k") =
      .rejected 400 "Invalid signature") := by
  have h := webhook_signature_verification (fun s => s) "k" "a" "YQ==k"
  refine ⟨h.1.mpr (by decide), h.2.1, h.2.2 "b" (by decide) (h.1.mpr (by decide))⟩

lemma applyPaymentUpdate_uuid (ns : String) (now : Int) (p : PaymentDoc) :
    (applyPaymentUpdate ns now p).cryptomus_uuid = p.cryptomus_uuid := by
  unfold applyPaymentUpdate
  dsimp only
  split <;> try split
  all_goals rfl

lemma applyPaymentUpdate_pid (ns : String) (now : Int) (p : PaymentDoc) :
    (applyPaymentUpdate ns now p).pid = p.pid := by
  unfold applyPaymentUpdate
  dsimp only
  split <;> try split
  all_goals rfl

lemma applyPaymentUpdate_status (ns : String) (now : Int) (p : PaymentDoc) :
    (applyPaymentUpdate ns now p).status = ns := by
  unfold applyPaymentUpdate
  dsimp only
  split <;> try split
  all_goals rfl

/-- C2 (amended): for a payment found by its provider uuid, the handler
credits the owner exactly on a delivery whose mapped status is `completed`
while the stored status is not `completed` (it skips all side effects when
the two are equal), and delivering the same webhook a second time adds
nothing — so the same verified "payment completed" webhook delivered twice
credits exactly once.  (The unamended "at most once per Payment" is false:
see the counterexample, a completed-failed-completed sequence credits
twice.) -/
theorem webhook_credit_transition (p : PaymentDoc) (u s : String) (c0 : Rat)
    (now1 now2 : Int) (hu : p.cryptomus_uuid = some u) :
    ((handle_cryptomus_webhook ⟨[p], c0⟩ ⟨some u, some s⟩ now1).1.credits =
      (if parse_payment_status s = "completed" ∧ p.status ≠ "completed"
       then c0 + p.amount else c0)) ∧
    ((handle_cryptomus_webhook
        (handle_cryptomus_webhook ⟨[p], c0⟩ ⟨some u, some s⟩ now1).1
        ⟨some u, some s⟩ now2).1.credits =
      (handle_cryptomus_webhook ⟨[p], c0⟩ ⟨some u, some s⟩ now1).1.credits) := by
  have hfind : List.find? (fun q => q.cryptomus_uuid == some u) [p] = some p := by
    simp [List.find?, hu]
  by_cases hns : parse_payment_status s = p.status
  · have hskip : ∀ now : Int,
        handle_cryptomus_webhook ⟨[p], c0⟩ ⟨some u, some s⟩ now = (⟨[p], c0⟩, true) := by
      intro now
      unfold handle_cryptomus_webhook
      simp [hfind, hns]
    refine ⟨?_, ?_⟩
    · rw [hskip now1]
      have hcond : ¬ (parse_payment_status s = "completed" ∧ p.status ≠ "completed") := by
        rintro ⟨h1, h2⟩
        exact h2 (hns ▸ h1)
      simp [hcond]
    · rw [hskip now1]
      dsimp only
      rw [hskip now2]
  · have hstep :
        handle_cryptomus_webhook ⟨[p], c0⟩ ⟨some u, some s⟩ now1 =
          (⟨[applyPaymentUpdate (parse_payment_status s) now1 p],
            if parse_payment_status s == "completed" then c0 + p.amount else c0⟩, true) := by
      unfold handle_cryptomus_webhook
      simp only [hfind]
      rw [if_pos (by simpa using hns)]
      simp [List.map]
    refine ⟨?_, ?_⟩
    · rw [hstep]
      dsimp only
      by_cases hc : parse_payment_status s = "completed"
      · rw [if_pos (by simpa using hc), if_pos ⟨hc, fun hps => hns (hc.trans hps.symm)⟩]
      · rw [if_neg (by simpa using hc), if_neg (fun hand => hc hand.1)]
    · rw [hstep]
      dsimp only
      unfold handle_cryptomus_webhook
      have hfind2 : List.find? (fun q => q.cryptomus_uuid == some u)
          [applyPaymentUpdate (parse_payment_status s) now1 p] =
          some (applyPaymentUpdate (parse_payment_status s) now1 p) := by
        simp [List.find?, applyPaymentUpdate_uuid, hu]
      simp only [hfind2]
      rw [if_neg (by simp [applyPaymentUpdate_status])]

/-- C2 witness: a pending payment of amount 50 found by uuid `uu`; the
verified "paid" webhook credits 50 once, and a second identical delivery
leaves the balance unchanged. -/
def samplePayment : PaymentDoc :=
  { pid := "p1", user_id := "u1", amount := 50, status := "pending",
    cryptomus_uuid := some "uu", completed_at := none, cancelled_at := none }

theorem webhook_credit_transition_witness :
    ((handle_cryptomus_webhook ⟨[samplePayment], 0⟩ ⟨some "uu", some "paid"⟩ 1).1.credits = 50) ∧
    ((handle_cryptomus_webhook
        (handle_cryptomus_webhook ⟨[samplePayment], 0⟩ ⟨some "uu", some "paid"⟩ 1).1
        ⟨some "uu", some "paid"⟩ 2).1.credits =
      (handle_cryptomus_webhook ⟨[samplePayment], 0⟩ ⟨some "uu", some "paid"⟩ 1).1.credits) := by
  have h := webhook_credit_transition samplePayment "uu" "paid" 0 1 2 rfl
  refine ⟨h.1.trans ?_, h.2⟩
  rw [if_pos ⟨by decide, by decide⟩]
  norm_num [samplePayment]

/-- C2 counterexample: the claim's "a credit is applied at most once per
Payment" fails — a provider status sequence paid, fail, paid (all
verified webhooks for the same payment of amount 50) credits the owner
twice, for a total of 100 > 50, because the handler credits on every
transition into `completed`, not only the first. -/
theorem webhook_double_credit_counterexample :
    ((runWebhooks ⟨[samplePayment], 0⟩
        [(⟨some "uu", some "paid"⟩, 1), (⟨some "uu", some "fail"⟩, 2),
         (⟨some "uu", some "paid"⟩, 3)]).credits = 100) ∧
    ¬ ((100 : Rat) ≤ samplePayment.amount) := by
  constructor
  · simp [runWebhooks, handle_cryptomus_webhook, parse_payment_status,
      applyPaymentUpdate, samplePayment, List.find?]
    norm_num
  · norm_num [samplePayment]

/-- Route helper: when the ledger order is not in an active status, the
handler returns without consulting the bot backend and without writing. -/
lemma orderStatusRoute_db_of_inactive (db : List OrderDoc) (id requester : String)
    (reply : BotHttp) (now : Int) (o : OrderDoc) (hf : findOrder db id = some o)
    (hin : activeStatuses.contains o.status = false) :
    (orderStatusRoute db id requester reply now).1 = db := by
  unfold orderStatusRoute
  rw [hf]
  dsimp only
  by_cases how : o.user_id != requester
  · rw [if_pos how]
  · rw [if_neg how, if_neg (by simp only [hin]; decide)]

/-- Route helper: an exception from the bot client whose message does not
contain the substring `"not found"` leaves the ledger untouched in every
branch of the handler. -/
lemma orderStatusRoute_db_of_exn (db : List OrderDoc) (id requester msg : String)
    (now : Int)
    (hmsg : pyContains (pyLower ("Communication error: " ++ msg)) "not found" = false) :
    (orderStatusRoute db id requester (.exn msg) now).1 = db := by
  unfold orderStatusRoute
  cases hf : findOrder db id with
  | none => rfl
  | some o =>
      dsimp only
      by_cases how : o.user_id != requester
      · rw [if_pos how]
      · rw [if_neg how]
        by_cases hact : activeStatuses.contains o.status
        · rw [if_pos hact]
          dsimp only [get_bot_order_status]
          rw [if_neg (by simp [hmsg])]
        · rw [if_neg hact]

/-- C4: if the ledger holds the order in an active status
({pending, in-progress, processing}) and the bot backend explicitly
returns 404 for its id, the status check transitions the order to `failed`
with the restart error message; any second status query for the same id
(whatever the bot then replies) leaves the ledger unchanged, because the
order is terminal. -/
theorem restart_repair_idempotent (db : List OrderDoc) (id requester : String)
    (now : Int) (o : OrderDoc) (hf : findOrder db id = some o)
    (howner : o.user_id = requester)
    (hactive : activeStatuses.contains o.status = true) :
    ∃ o', findOrder (orderStatusRoute db id requester .notFound now).1 id = some o' ∧
      o'.status = "failed" ∧
      o'.error_message = some "Order was interrupted by bot backend restart" ∧
      (∀ reply now2,
        (orderStatusRoute (orderStatusRoute db id requester .notFound now).1
          id requester reply now2).1 =
        (orderStatusRoute db id requester .notFound now).1) := by
  have hroute :
      (orderStatusRoute db id requester .notFound now).1 =
        (update_order_status db id "failed"
          (some "Order was interrupted by bot backend restart") now).1 := by
    unfold orderStatusRoute
    rw [hf]
    dsimp only
    rw [if_neg (by simp [howner]), if_pos hactive]
    dsimp only [get_bot_order_status]
    rw [if_pos (by decide)]
  refine ⟨applyStatusUpdate "failed"
      (some "Order was interrupted by bot backend restart") now o, ?_, ?_, ?_, ?_⟩
  · rw [hroute]
    exact findOrder_update_order_status db id _ _ now o hf
  · exact applyStatusUpdate_status _ _ now o
  · exact applyStatusUpdate_error_some _ _ now o
  · intro reply now2
    apply orderStatusRoute_db_of_inactive _ _ _ _ _
      (applyStatusUpdate "failed" (some "Order was interrupted by bot backend restart") now o)
    · rw [hroute]
      exact findOrder_update_order_status db id _ _ now o hf
    · rw [applyStatusUpdate_status]
      rfl

/-- C4 witness: a pending ledger order whose id the bot backend 404s is
failed with the restart message, and a second query (any reply) does not
change the ledger again. -/
theorem restart_repair_idempotent_witness :
    ∃ o', findOrder (orderStatusRoute [samplePendingOrder] "o1" "u1" .notFound 7).1 "o1" =
        some o' ∧
      o'.status = "failed" ∧
      o'.error_message = some "Order was interrupted by bot backend restart" ∧
      (∀ reply now2,
        (orderStatusRoute (orderStatusRoute [samplePendingOrder] "o1" "u1" .notFound 7).1
          "o1" "u1" reply now2).1 =
        (orderStatusRoute [samplePendingOrder] "o1" "u1" .notFound 7).1) :=
  restart_repair_idempotent [samplePendingOrder] "o1" "u1" 7 samplePendingOrder
    (by rfl) (by rfl) (by rfl)

/-- C5 (amended): if the bot backend is unreachable (the client catches the
exception and reports `"Communication error: <msg>"`), the status check
writes nothing to the ledger and answers with the order's current ledger
status, and this holds for every number of repeated attempts — provided
the exception message does not contain the substring `"not found"`
(case-insensitively): the handler distinguishes explicit not-found from
unreachable only by that substring test on the error string.  (The
unamended claim is false: see the counterexample with message
`"host not found"`.) -/
theorem unreachable_leaves_ledger_unchanged (db : List OrderDoc)
    (id requester msg : String) (now : Int)
    (hmsg : pyContains (pyLower ("Communication error: " ++ msg)) "not found" = false) :
    (∀ n, iterateStatusRoute db id requester (.exn msg) now n = db) ∧
    (∀ o, findOrder db id = some o → o.user_id = requester →
      (orderStatusRoute db id requester (.exn msg) now).2 = .ok (dbStatusBody o)) := by
  constructor
  · intro n
    induction n generalizing db with
    | zero => rfl
    | succ k ih =>
        show iterateStatusRoute (orderStatusRoute db id requester (.exn msg) now).1
          id requester (.exn msg) now k = db
        rw [orderStatusRoute_db_of_exn db id requester msg now hmsg]
        exact ih db
  · intro o hf howner
    unfold orderStatusRoute
    rw [hf]
    dsimp only
    rw [if_neg (by simp [howner])]
    by_cases hact : activeStatuses.contains o.status
    · rw [if_pos hact]
      dsimp only [get_bot_order_status]
      rw [if_neg (by simp [hmsg])]
    · rw [if_neg hact]

/-- C5 counterexample: the claim as stated is false — an unreachable bot
backend surfacing as an exception with message `"host not found"` (the
classic resolver error text) is misclassified by the substring test, and
the status check marks the pending order `failed` instead of leaving the
ledger unchanged. -/
theorem unreachable_false_failure_counterexample :
    ((findOrder (orderStatusRoute [samplePendingOrder] "o1" "u1"
        (.exn "host not found") 5).1 "o1").map (fun o => o.status) = some "failed") ∧
    samplePendingOrder.status = "pending" := by
  constructor
  · decide
  · rfl

/-- C5 witness: with a plain timeout message the route leaves the
one-order ledger unchanged for three repeated attempts and answers with
the stored `pending` status. -/
theorem unreachable_leaves_ledger_unchanged_witness :
    (iterateStatusRoute [samplePendingOrder] "o1" "u1" (.exn "timed out") 5 3 =
      [samplePendingOrder]) ∧
    ((orderStatusRoute [samplePendingOrder] "o1" "u1" (.exn "timed out") 5).2 =
      .ok (dbStatusBody samplePendingOrder)) := by
  have h := unreachable_leaves_ledger_unchanged [samplePendingOrder] "o1" "u1"
    "timed out" 5 (by decide)
  exact ⟨h.1 3, h.2 samplePendingOrder (by rfl) (by rfl)⟩

/-- C9 (amended): when the ledger order is active and the bot backend
returns a session for the id, the session's status and progress fields are
mirrored into the HTTP response returned to the caller — verbatim, with no
mapping of unknown statuses — but nothing is written to the ledger: the
order's stored status is unchanged.  (The unamended claim, that the
session fields are written to the ledger with unknown statuses mapped to
`failed`, is false: see the counterexample.) -/
theorem session_mirrored_to_response (db : List OrderDoc) (id requester : String)
    (data : BotSessionData) (now : Int) (o : OrderDoc)
    (hf : findOrder db id = some o) (howner : o.user_id = requester)
    (hactive : activeStatuses.contains o.status = true) :
    (orderStatusRoute db id requester (.ok data) now).1 = db ∧
    ∃ body, (orderStatusRoute db id requester (.ok data) now).2 = .ok body ∧
      body.status = data.status ∧
      body.upvotes_done = data.upvotes_done.getD 0 ∧
      body.progress_percentage = data.progress_percentage.getD 0 ∧
      body.error_message = data.error := by
  have hroute : orderStatusRoute db id requester (.ok data) now =
      (db, .ok { success := true
                 status := data.status
                 order_id := id
                 total_upvotes := o.upvotes
                 upvotes_done := data.upvotes_done.getD 0
                 progress_percentage := data.progress_percentage.getD 0
                 error_message := data.error
                 last_update :=
                   match data.last_update with
                   | some t => some t
                   | none => some o.last_update }) := by
    unfold orderStatusRoute
    rw [hf]
    dsimp only
    rw [if_neg (by simp [howner]), if_pos hactive]
    dsimp only [get_bot_order_status]
  rw [hroute]
  exact ⟨rfl, _, rfl, rfl, rfl, rfl, rfl⟩

/-- C9 witness: a running session with progress 50% for a pending ledger
order is echoed in the response while the ledger keeps `pending`. -/
theorem session_mirrored_to_response_witness :
    ((orderStatusRoute [samplePendingOrder] "o1" "u1"
        (.ok { status := "running", upvotes_done := some 5,
               progress_percentage := some 50, error := none,
               last_update := some 9 }) 5).1 = [samplePendingOrder]) ∧
    (∃ body, (orderStatusRoute [samplePendingOrder] "o1" "u1"
        (.ok { status := "running", upvotes_done := some 5,
               progress_percentage := some 50, error := none,
               last_update := some 9 }) 5).2 = .ok body ∧
      body.status = "running" ∧ body.upvotes_done = 5 ∧
      body.progress_percentage = 50 ∧ body.error_message = none) := by
  have h := session_mirrored_to_response [samplePendingOrder] "o1" "u1"
    { status := "running", upvotes_done := some 5, progress_percentage := some 50,
      error := none, last_update := some 9 } 5 samplePendingOrder
    (by rfl) (by rfl) (by rfl)
  exact ⟨h.1, h.2⟩

/-- C9 counterexample: the claim says the session's status is written to
the ledger; in fact after the status check against a `running` session the
pending order is still `pending` in the ledger — the route only returns
the session status to the caller. -/
theorem ledger_not_mirrored_counterexample :
    ((orderStatusRoute [samplePendingOrder] "o1" "u1"
        (.ok { status := "running", upvotes_done := some 5,
               progress_percentage := some 50, error := none,
               last_update := some 9 }) 5).1 = [samplePendingOrder]) ∧
    ((findOrder (orderStatusRoute [samplePendingOrder] "o1" "u1"
        (.ok { status := "running", upvotes_done := some 5,
               progress_percentage := some 50, error := none,
               last_update := some 9 }) 5).1 "o1").map (fun o => o.status) =
      some "pending") ∧
    "pending" ≠ "running" := by
  refine ⟨by decide, by decide, by decide⟩

/-- C1: evaluation of `OrderService.create_order` on a valid creation
request (valid Reddit URL, ample credits).  The order document is inserted
with status `pending` and the credits are deducted, but the handler then
raises `AttributeError` — `TaskManager` defines `schedule_order_processing`
but no `schedule_bot_order_processing` — so the order is never placed on
the dispatch queue, contradicting the claim that every valid creation
enqueues the order exactly once. -/
theorem create_order_never_enqueues :
    ((create_order ⟨10, [], []⟩ "u1"
        ⟨"https://www.reddit.com/r/test/comments/abc/", 100, some 10⟩ "o9" 0).2 =
      .error (.attributeError
        "TaskManager object has no attribute schedule_bot_order_processing")) ∧
    ((create_order ⟨10, [], []⟩ "u1"
        ⟨"https://www.reddit.com/r/test/comments/abc/", 100, some 10⟩ "o9" 0).1.orders.map
          (fun o => (o.oid, o.status)) = [("o9", "pending")]) ∧
    ((create_order ⟨10, [], []⟩ "u1"
        ⟨"https://www.reddit.com/r/test/comments/abc/", 100, some 10⟩ "o9" 0).1.queue = []) := by
  have hc : ¬ ((10 : Rat) < (100 : Nat) * (8 / 1000)) := by norm_num
  refine ⟨?_, ?_, ?_⟩ <;>
    · unfold create_order
      rw [if_neg hc]
      rfl

/-- Lookup of the (possibly replaced) entry after the keyed replacement of
a dict assignment, when some element matches. -/
lemma find?_map_replace (l : List UpvoteSession) (s : UpvoteSession)
    (h : l.any (fun x => x.order_id == s.order_id) = true) :
    (l.map (fun x => if x.order_id == s.order_id then s else x)).find?
      (fun x => x.order_id == s.order_id) = some s := by
  induction l with
  | nil => simp at h
  | cons x xs ih =>
      by_cases hx : x.order_id == s.order_id
      · simp [hx, List.find?]
      · have hxs : xs.any (fun y => y.order_id == s.order_id) = true := by
          simpa [List.any_cons, hx] using h
        simp only [List.map_cons, if_neg hx]
        rw [List.find?_cons_of_neg _ (by simpa using hx)]
        exact ih hxs

/-- Lookup after a dict assignment that appended a fresh entry. -/
lemma find?_append_single (l : List UpvoteSession) (s : UpvoteSession)
    (h : l.any (fun x => x.order_id == s.order_id) = false) :
    (l ++ [s]).find? (fun x => x.order_id == s.order_id) = some s := by
  induction l with
  | nil => simp [List.find?]
  | cons x xs ih =>
      have hx : (x.order_id == s.order_id) = false := by
        rcases hb : (x.order_id == s.order_id) with _ | _
        · rfl
        · simp [List.any_cons, hb] at h
      rw [List.cons_append, List.find?_cons_of_neg _ (by simp [hx])]
      exact ih (by simpa [List.any_cons, hx] using h)

/-- After the dict assignment `self.sessions[order_id] = session`, looking
the id up yields exactly the assigned session. -/
lemma findSession_sessionUpsert (l : List UpvoteSession) (s : UpvoteSession) :
    findSession (sessionUpsert l s) s.order_id = some s := by
  unfold findSession sessionUpsert
  rcases h : l.any (fun x => x.order_id == s.order_id) with _ | _
  · rw [if_neg (by simp [h])]
    exact find?_append_single l s h
  · rw [if_pos (by simp [h])]
    exact find?_map_replace l s h

/-- C7: every order that passes `process_order`'s validation (all four
required fields present, positive quantities) comes back as
`success = false` with a `"Processing error: ..."` message naming the
missing `upvotes_done` attribute: the success branch of
`_start_upvote_processing` reads `session.upvotes_done` and
`session.progress_percentage`, which the fresh `UpvoteSession` never has,
so the response construction raises `AttributeError` and the outer handler
converts it — while the worker thread has already been started. -/
theorem process_order_success_branch_raises (st : ProcState) (od : BotOrderData)
    (now : Int) (oid url : String) (uv upm : Int)
    (h1 : od.order_id = some oid) (h2 : od.reddit_url = some url)
    (h3 : od.upvotes = some uv) (h4 : od.upvotes_per_minute = some upm)
    (h5 : 0 < uv) (h6 : 0 < upm) :
    ((process_order st od now).2.success = false) ∧
    ((process_order st od now).2.status = "failed") ∧
    ((process_order st od now).2.error =
      some "Processing error: UpvoteSession object has no attribute upvotes_done") ∧
    ((process_order st od now).1.threadsStarted = st.threadsStarted ++ [oid]) := by
  have hcond : (decide (uv ≤ 0) || decide (upm ≤ 0)) = false := by
    simp [not_le.mpr h5, not_le.mpr h6]
  have hfound := findSession_sessionUpsert st.sessions
    { order_id := oid, url := url, total_upvotes := uv
      upvotes_per_minute := upm, status := "pending"
      start_time := now, last_update := now, error_message := none
      upvotes_done := none, progress_percentage := none }
  refine ⟨?_, ?_, ?_, ?_⟩ <;>
    · unfold process_order
      rw [h1, h2, h3, h4]
      dsimp only
      rw [if_neg (by simp [hcond])]
      unfold start_upvote_processing
      rw [hfound]
      rfl

/-- C7 witness: a concrete well-formed order is accepted, its thread
starts, and the result is the converted `AttributeError` failure. -/
theorem process_order_success_branch_raises_witness :
    ((process_order ⟨[], [], []⟩
        ⟨some "ord1", some "https://www.reddit.com/r/x/", some 10, some 2⟩ 0).2.success =
      false) ∧
    ((process_order ⟨[], [], []⟩
        ⟨some "ord1", some "https://www.reddit.com/r/x/", some 10, some 2⟩ 0).2.error =
      some "Processing error: UpvoteSession object has no attribute upvotes_done") ∧
    ((process_order ⟨[], [], []⟩
        ⟨some "ord1", some "https://www.reddit.com/r/x/", some 10, some 2⟩ 0).1.threadsStarted =
      ["ord1"]) := by
  have h := process_order_success_branch_raises ⟨[], [], []⟩
    ⟨some "ord1", some "https://www.reddit.com/r/x/", some 10, some 2⟩ 0
    "ord1" "https://www.reddit.com/r/x/" 10 2 rfl rfl rfl rfl (by decide) (by decide)
  exact ⟨h.1, h.2.2.1, h.2.2.2⟩

/-- The entry rewrite `mark_as_failed_after_restart` performs on one
history entry. -/
def markEntryFailed (now : Int) (e : HistEntry) : HistEntry :=
  applyHistUpdate "failed" (some "Order failed due to bot backend restart")
    (some now) none now e

lemma markEntryFailed_eq (now : Int) (e : HistEntry) :
    markEntryFailed now e =
      { e with status := "failed", last_update := now,
               error_message := some "Order failed due to bot backend restart",
               completed_at := some now } := rfl

lemma markEntryFailed_idem (now : Int) (e : HistEntry) :
    markEntryFailed now (markEntryFailed now e) = markEntryFailed now e := rfl

lemma applyHistUpdate_order_id (status : String) (ke : Option String)
    (kc ks : Option Int) (now : Int) (e : HistEntry) :
    (applyHistUpdate status ke kc ks now e).order_id = e.order_id := by
  unfold applyHistUpdate
  cases ke <;> cases kc <;> cases ks <;> dsimp only <;> split <;> try split
  all_goals rfl

/-- Keyed-map lookup for the history store, same id. -/
lemma findHist_map_keyed (h : List HistEntry) (id : String) (g : HistEntry → HistEntry)
    (hg : ∀ e, (g e).order_id = e.order_id) :
    findHist (h.map (fun e => if e.order_id == id then g e else e)) id =
      (findHist h id).map g := by
  induction h with
  | nil => rfl
  | cons x xs ih =>
      by_cases hx : x.order_id == id
      · simp only [findHist, List.map_cons, hx, if_pos]
        rw [List.find?_cons_of_pos, List.find?_cons_of_pos]
        · rfl
        · exact hx
        · simpa [hg] using hx
      · simp only [findHist, List.map_cons, hx, if_neg, Bool.not_eq_true]
        rw [List.find?_cons_of_neg, List.find?_cons_of_neg]
        · exact ih
        · simpa using hx
        · simpa using hx

/-- Keyed-map lookup for the history store, different id: untouched. -/
lemma findHist_map_keyed_other (h : List HistEntry) (id' id : String)
    (g : HistEntry → HistEntry) (hg : ∀ e, (g e).order_id = e.order_id)
    (hne : id' ≠ id) :
    findHist (h.map (fun e => if e.order_id == id' then g e else e)) id =
      findHist h id := by
  induction h with
  | nil => rfl
  | cons x xs ih =>
      by_cases hx : x.order_id == id'
      · have hxid : (x.order_id == id) = false := by
          have : x.order_id = id' := by simpa using hx
          simp [this, hne]
        simp only [findHist, List.map_cons, hx, if_pos]
        rw [List.find?_cons_of_neg, List.find?_cons_of_neg]
        · exact ih
        · simp [hxid]
        · simp [hg, hxid]
      · simp only [findHist, List.map_cons, hx, if_neg, Bool.not_eq_true]
        by_cases hxid : x.order_id == id
        · rw [List.find?_cons_of_pos, List.find?_cons_of_pos]
          · exact hxid
          · exact hxid
        · rw [List.find?_cons_of_neg, List.find?_cons_of_neg]
          · exact ih
          · simpa using hxid
          · simpa using hxid

lemma findHist_update_same (h : List HistEntry) (id status : String)
    (ke : Option String) (kc ks : Option Int) (now : Int) :
    findHist (history_update_order_status h id status ke kc ks now) id =
      (findHist h id).map (applyHistUpdate status ke kc ks now) := by
  unfold history_update_order_status
  by_cases hany : h.any (fun e => e.order_id == id)
  · rw [if_pos hany]
    exact findHist_map_keyed h id _ (applyHistUpdate_order_id status ke kc ks now)
  · rw [if_neg hany]
    have hnone : findHist h id = none := by
      unfold findHist
      rw [List.find?_eq_none]
      intro x hx
      intro hcontra
      exact hany (List.any_eq_true.mpr ⟨x, hx, hcontra⟩)
    rw [hnone]
    rfl

lemma findHist_update_other (h : List HistEntry) (id' id status : String)
    (ke : Option String) (kc ks : Option Int) (now : Int) (hne : id' ≠ id) :
    findHist (history_update_order_status h id' status ke kc ks now) id =
      findHist h id := by
  unfold history_update_order_status
  by_cases hany : h.any (fun e => e.order_id == id')
  · rw [if_pos hany]
    exact findHist_map_keyed_other h id' id _
      (applyHistUpdate_order_id status ke kc ks now) hne
  · rw [if_neg hany]

/-- Lookup after the restart-recovery fold: if some processed snapshot
entry carries the id, the stored entry is the marked one; otherwise the
store is untouched at that id. -/
lemma foldl_mark_findHist (L : List HistEntry) (h0 : List HistEntry)
    (id : String) (now : Int) :
    findHist (L.foldl (fun acc e => mark_as_failed_after_restart acc e.order_id now) h0) id =
      if L.any (fun e => e.order_id == id) then
        (findHist h0 id).map (markEntryFailed now)
      else findHist h0 id := by
  induction L generalizing h0 with
  | nil => simp
  | cons e0 rest ih =>
      rw [List.foldl_cons]
      by_cases he : e0.order_id = id
      · have hmark :
            findHist (mark_as_failed_after_restart h0 e0.order_id now) id =
              (findHist h0 id).map (markEntryFailed now) := by
          unfold mark_as_failed_after_restart
          rw [he]
          exact findHist_update_same h0 id "failed" _ _ _ now
        rw [ih, hmark]
        have hhead : (e0.order_id == id) = true := by simpa using he
        by_cases hrest : rest.any (fun e => e.order_id == id)
        · rw [if_pos hrest, if_pos (by simp [List.any_cons, hhead])]
          cases hfe : findHist h0 id with
          | none => rfl
          | some x => simp [markEntryFailed_idem]
        · rw [if_neg hrest, if_pos (by simp [List.any_cons, hhead])]
      · have hmark :
            findHist (mark_as_failed_after_restart h0 e0.order_id now) id =
              findHist h0 id := by
          unfold mark_as_failed_after_restart
          exact findHist_update_other h0 e0.order_id id "failed" _ _ _ now he
        rw [ih, hmark]
        have hhead : (e0.order_id == id) = false := by simpa using he
        simp [List.any_cons, hhead]

/-- C3: on execution-service startup, every persisted history entry whose
status is `pending` or `running` is rewritten to `failed` with the restart
error message and a completion timestamp, and a status query for that id
on the restarted (empty-session) process answers from the persistent
history with that `failed` record — success, not the not-found result. -/
theorem restart_recovery_marks_failed (h : List HistEntry) (now : Int)
    (id : String) (e : HistEntry) (hf : findHist h id = some e)
    (hs : e.status = "pending" ∨ e.status = "running") :
    (findHist (handle_restart_recovery h now) id = some (markEntryFailed now e)) ∧
    ((markEntryFailed now e).status = "failed") ∧
    ((markEntryFailed now e).error_message =
      some "Order failed due to bot backend restart") ∧
    ((markEntryFailed now e).completed_at = some now) ∧
    (get_session_status [] (handle_restart_recovery h now) id =
      .ok { success := true, status := "failed",
            error := some "Order failed due to bot backend restart",
            upvotes_done := (markEntryFailed now e).upvotes_done,
            progress_percentage := (markEntryFailed now e).progress_percentage,
            order_id := some id,
            total_upvotes := (markEntryFailed now e).total_upvotes }) := by
  have hmem : e ∈ h := List.mem_of_find?_eq_some hf
  have hpred : (e.order_id == id) = true := by
    have := List.find?_some hf
    simpa using this
  have hfilter : e ∈ h.filter (fun x => x.status == "pending" || x.status == "running") := by
    refine List.mem_filter.mpr ⟨hmem, ?_⟩
    rcases hs with hs | hs <;> simp [hs]
  have hany : (h.filter (fun x => x.status == "pending" || x.status == "running")).any
      (fun x => x.order_id == id) = true :=
    List.any_eq_true.mpr ⟨e, hfilter, hpred⟩
  have hfind :
      findHist (handle_restart_recovery h now) id = some (markEntryFailed now e) := by
    unfold handle_restart_recovery
    rw [foldl_mark_findHist, if_pos hany, hf]
    rfl
  refine ⟨hfind, rfl, rfl, rfl, ?_⟩
  unfold get_session_status
  rw [show findSession [] id = none from rfl]
  dsimp only
  rw [hfind]
  rfl

/-- C3 witness: one history entry persisted as `running`; after the
restart-recovery pass it is `failed` with the restart message and a
completion timestamp, and the status query answers from history with
success instead of not-found. -/
def sampleRunningEntry : HistEntry :=
  { order_id := "h1", reddit_url := some "https://www.reddit.com/r/a/",
    total_upvotes := some 10, upvotes_per_minute := some 2, status := "running",
    upvotes_done := 0, progress_percentage := 0, created_at := 0,
    started_at := some 1, completed_at := none, last_update := 1,
    error_message := none }

theorem restart_recovery_marks_failed_witness :
    (findHist (handle_restart_recovery [sampleRunningEntry] 9) "h1" =
      some (markEntryFailed 9 sampleRunningEntry)) ∧
    ((markEntryFailed 9 sampleRunningEntry).status = "failed") ∧
    ((markEntryFailed 9 sampleRunningEntry).completed_at = some 9) ∧
    (get_session_status [] (handle_restart_recovery [sampleRunningEntry] 9) "h1" =
      .ok { success := true, status := "failed",
            error := some "Order failed due to bot backend restart",
            upvotes_done := (markEntryFailed 9 sampleRunningEntry).upvotes_done,
            progress_percentage := (markEntryFailed 9 sampleRunningEntry).progress_percentage,
            order_id := some "h1",
            total_upvotes := (markEntryFailed 9 sampleRunningEntry).total_upvotes }) := by
  have h := restart_recovery_marks_failed [sampleRunningEntry] 9 "h1"
    sampleRunningEntry (by rfl) (Or.inr rfl)
  exact ⟨h.1, h.2.1, h.2.2.2.1, h.2.2.2.2⟩

end Upvotehub
